import Mathlib

/-!
Verification development for the DMI backend (multi-tenant schema manager).

The repository ships a single source file, `src/backend/server.js`, which
contains every HTTP handler.  The handlers delegate to a database layer
(`./db.js`: `createDatabase`, `databaseExists`, `listDatabases`,
`initDatabase`, `exportDatabase`, `migrateDatabase`, `getPoolForDatabase`)
that is not part of the shipped sources; those functions are modelled from
the specification (each such definition carries a doc comment starting
with `Modelled from the spec:`).  The handlers themselves are translated
directly from `server.js`.

Storage is modelled as an explicit state: a list of named schemas, each
holding an optional `users` table (absent until table initialisation) with
its rows.  Every operation additionally returns the list of statements it
issued against storage, distinguishing statements that embed a schema
identifier into SQL text (DDL/DML built with string interpolation in
`server.js`) from parameterised catalog reads, so that identifier-safety
properties can be stated about the statement trace.  Row timestamps
(`created_at`, `updated_at`) are elided from the row model: no verified
property mentions them.  Storage-connectivity failures are modelled by
fault-injection flags in `Env`.
-/

/-- One row of the managed `users` table: id, name, unique email, nullable
age.  JavaScript absent/null age is `Option.none`. -/
structure Row where
  id : Nat
  name : String
  email : String
  age : Option Int
deriving DecidableEq, Repr

/-- The contents of one tenant schema.  `users = none` means the `users`
table has not been created yet (schema exists but is uninitialised). -/
structure SchemaData where
  users : Option (List Row)
deriving DecidableEq, Repr

/-- The storage state: the administrative catalog of schemas, each with its
table contents.  Newly created schemas are prepended. -/
structure DBState where
  schemas : List (String × SchemaData)
deriving DecidableEq, Repr

/-- A statement issued against storage.  `catalogRead` is a parameterised
query (the argument is bound as a query parameter, not embedded in SQL
text); `ddl` and `dml` are statements whose SQL text embeds the given
schema identifier (the interpolated `"${dbName}"` of `server.js`). -/
inductive Stmt where
  | catalogRead (param : String)
  | ddl (schemaName : String)
  | dml (schemaName : String)
deriving DecidableEq, Repr

/-- The error taxonomy of the spec (§7), plus the driver's unique-violation
error (code 23505) that the core normalises. -/
inductive DBError where
  | invalidIdentifier (name : String)
  | alreadyExists (name : String)
  | unknownSchema (name : String)
  | uniqueViolation
  | storageUnavailable (msg : String)
deriving DecidableEq, Repr

/-- Human-readable message attached to each error (the `error.message`
JavaScript field). -/
def errMessage : DBError → String
  | .invalidIdentifier n => s!"Invalid schema name: {n}"
  | .alreadyExists n => s!"Schema {n} already exists"
  | .unknownSchema n => s!"Schema {n} does not exist"
  | .uniqueViolation => "duplicate key value violates unique constraint"
  | .storageUnavailable m => m

/-- The migration report of §3: per-table copied and conflict counts for
the single managed table, plus the overall success flag. -/
structure MigrationResult where
  copiedUsers : Nat
  conflictsUsers : Nat
  success : Bool
deriving DecidableEq, Repr

/-- An HTTP response as assembled by the `server.js` handlers: status code,
the stable `error` field, the human-readable `message` field, and the
`exists` flag of the existence endpoint. -/
structure Response where
  status : Nat
  error : Option String := none
  message : Option String := none
  existsFlag : Option Bool := none
  migration : Option MigrationResult := none
deriving DecidableEq, Repr

/-- Fault-injection environment modelling storage-connectivity failures
(`StorageUnavailable` in the spec's taxonomy) at each storage operation. -/
structure Env where
  faultCreate : Bool := false
  faultInit : Bool := false
  faultMigrate : Bool := false
  faultInsert : Bool := false
  faultList : Bool := false
  faultExport : Bool := false
  faultQuery : Bool := false
deriving DecidableEq, Repr

/-- The all-clear environment: storage healthy. -/
def env0 : Env := {}

/-- A character admissible inside a schema identifier: letters, digits,
underscore. -/
def isValidIdentChar (c : Char) : Bool :=
  c.isAlpha || c.isDigit || c == '_'

/-- Modelled from the spec: the Identifier Validator's grammar (§4.1,
`validate`, from the missing `db.js`) — only letters, digits and
underscore, must start with a letter, length 1–63.  The spec's additional
reserved-word blacklist is not modelled; no verified property depends on
it (it only rejects more names). -/
def validateIdentifier (s : String) : Bool :=
  decide (1 ≤ s.length) && decide (s.length ≤ 63) &&
  (match s.data with
   | [] => false
   | c :: _ => c.isAlpha) &&
  s.data.all isValidIdentChar

/-- Modelled from the spec: `validate(name)` of §4.1 — pure, issues no
statement, fails with `InvalidIdentifier` on names outside the grammar. -/
def validate (s : String) : Except DBError Unit :=
  if validateIdentifier s then .ok () else .error (.invalidIdentifier s)

/-- The characters the spec singles out as always rejected: single quote,
double quote, space, semicolon (code points 39, 34, 32, 59). -/
def forbiddenChars : List Char :=
  [Char.ofNat 39, Char.ofNat 34, Char.ofNat 32, Char.ofNat 59]

/-- Look a schema up in the catalog. -/
def lookupSchema (st : DBState) (name : String) : Option SchemaData :=
  match st.schemas.find? (fun p => p.1 == name) with
  | some p => some p.2
  | none => none

/-- Modelled from the spec: `exists(name)` of §4.3 (`databaseExists` in the
missing `db.js`) — a read-only parameterised catalog query; total, never
throws, false for names that were never created. -/
def databaseExists (st : DBState) (name : String) : Bool :=
  (lookupSchema st name).isSome

/-- Replace the data of an existing schema (no-op on absent names). -/
def setSchema (st : DBState) (name : String) (d : SchemaData) : DBState :=
  ⟨st.schemas.map (fun p => if p.1 == name then (p.1, d) else p)⟩

/-- Add a fresh schema (uninitialised: no tables yet) to the catalog. -/
def addSchema (st : DBState) (name : String) : DBState :=
  ⟨(name, ⟨none⟩) :: st.schemas⟩

/-- A catalog whose every schema name passed the Identifier Validator —
the invariant maintained by `createDatabase`, which validates before any
DDL. -/
def goodState (st : DBState) : Bool :=
  st.schemas.all (fun p => validateIdentifier p.1)

/-- The identifier embedded in a statement's SQL text, if any. -/
def stmtEmbeds : Stmt → Option String
  | .catalogRead _ => none
  | .ddl n => some n
  | .dml n => some n

/-- Whether any statement of the trace embeds `s` into its SQL text. -/
def embedsName (tr : List Stmt) (s : String) : Bool :=
  tr.any (fun q => stmtEmbeds q == some s)

/-- Whether some row of the list already carries this email (the unique
constraint check). -/
def hasEmail (l : List Row) (e : String) : Bool :=
  l.any (fun t => t.email == e)

/-- The id the serial column assigns to the next inserted row. -/
def nextId (rows : List Row) : Nat :=
  rows.foldl (fun m r => max m r.id) 0 + 1

/-- Modelled from the spec: `create(name)` of §4.3 (`createDatabase` in the
missing `db.js`) — validates the name before anything touches storage,
rejects duplicates with `AlreadyExists`, then issues the schema-creation
DDL (the only statement embedding the name). -/
def createDatabase (env : Env) (st : DBState) (name : String) :
    Except DBError Unit × DBState × List Stmt :=
  if validateIdentifier name then
    if databaseExists st name then
      (.error (.alreadyExists name), st, [.catalogRead name])
    else if env.faultCreate then
      (.error (.storageUnavailable "storage unavailable"), st, [.catalogRead name])
    else
      (.ok (), addSchema st name, [.catalogRead name, .ddl name])
  else
    (.error (.invalidIdentifier name), st, [])

/-- Modelled from the spec: `initialize(schemaName)` of §4.4 (`initDatabase`
in the missing `db.js`) — validates, fails with `UnknownSchema` on absent
schemas, then applies the managed table definition with create-if-absent
semantics: an absent `users` table is created empty, an existing one is
left untouched. -/
def initDatabase (env : Env) (st : DBState) (name : String) :
    Except DBError Unit × DBState × List Stmt :=
  if validateIdentifier name then
    match lookupSchema st name with
    | none => (.error (.unknownSchema name), st, [.catalogRead name])
    | some d =>
        if env.faultInit then
          (.error (.storageUnavailable "storage unavailable"), st, [.catalogRead name])
        else
          (.ok (), setSchema st name ⟨some (d.users.getD [])⟩,
           [.catalogRead name, .ddl name])
  else
    (.error (.invalidIdentifier name), st, [])

/-- Modelled from the spec: `getPoolFor(schemaName)` of §4.2
(`getPoolForDatabase` in the missing `db.js`) — pool creation is guarded by
the Identifier Validator and fails with `UnknownSchema` for unregistered
schemas; the pool handle itself carries no data relevant to the verified
properties. -/
def getPoolForDatabase (st : DBState) (name : String) : Except DBError Unit :=
  if validateIdentifier name then
    if databaseExists st name then .ok () else .error (.unknownSchema name)
  else
    .error (.invalidIdentifier name)

/-- Modelled from the spec: `export(schemaName)` of §4.5 (`exportDatabase`
in the missing `db.js`) — validates, then reads all rows of the managed
tables of the schema (a DML read embedding the validated name). -/
def exportDatabase (env : Env) (st : DBState) (name : String) :
    Except DBError (List Row) × DBState × List Stmt :=
  if validateIdentifier name then
    match lookupSchema st name with
    | none => (.error (.unknownSchema name), st, [.catalogRead name])
    | some d =>
        if env.faultExport then
          (.error (.storageUnavailable "storage unavailable"), st, [.catalogRead name])
        else
          (.ok (d.users.getD []), st, [.catalogRead name, .dml name])
  else
    (.error (.invalidIdentifier name), st, [])

/-- The per-table copy loop of the Migrator: walk the source rows in order;
a row whose email already exists among the accumulated target rows is
skipped and counted as one conflict, any other row is appended to the
target.  Returns the final target rows and the conflict count. -/
def migrateRows : List Row → List Row → List Row × Nat
  | acc, [] => (acc, 0)
  | acc, r :: rs =>
    if hasEmail acc r.email then
      let p := migrateRows acc rs
      (p.1, p.2 + 1)
    else
      migrateRows (acc ++ [r]) rs

/-- Modelled from the spec: `migrate(sourceSchema, targetSchema)` of §4.6
(`migrateDatabase` in the missing `db.js`) — validates both names, fails
with `UnknownSchema` naming the missing schema without creating anything,
then copies source rows into the target, skipping and counting
unique-email conflicts rather than aborting. -/
def migrateDatabase (env : Env) (st : DBState) (src tgt : String) :
    Except DBError MigrationResult × DBState × List Stmt :=
  if validateIdentifier src then
    if validateIdentifier tgt then
      match lookupSchema st src with
      | none => (.error (.unknownSchema src), st, [.catalogRead src])
      | some sd =>
        match lookupSchema st tgt with
        | none => (.error (.unknownSchema tgt), st, [.catalogRead src, .catalogRead tgt])
        | some td =>
          if env.faultMigrate then
            (.error (.storageUnavailable "storage unavailable"), st,
             [.catalogRead src, .catalogRead tgt])
          else
            let srcRows := sd.users.getD []
            let tgtRows := td.users.getD []
            let p := migrateRows tgtRows srcRows
            (.ok ⟨srcRows.length - p.2, p.2, true⟩,
             setSchema st tgt ⟨some p.1⟩,
             [.catalogRead src, .catalogRead tgt, .dml src, .dml tgt])
    else
      (.error (.invalidIdentifier tgt), st, [])
  else
    (.error (.invalidIdentifier src), st, [])

/-- Modelled from the spec: `list()` of §4.3 (`listDatabases` in the
missing `db.js`) — a read-only catalog query returning the managed schema
names. -/
def listDatabases (env : Env) (st : DBState) :
    Except DBError (List String) × DBState × List Stmt :=
  if env.faultList then
    (.error (.storageUnavailable "storage unavailable"), st, [])
  else
    (.ok (st.schemas.map (fun p => p.1)), st, [.catalogRead "catalog"])

/-- JavaScript truthiness of a request-body string field: absent (`none`)
and the empty string are falsy. -/
def jsTruthy : Option String → Bool
  | none => false
  | some s => !(s == "")

/-- The age guard of `server.js` (`age && (age < 1 || age > 150)`): an
absent age is falsy, and so is the number 0 — an age of 0 skips the range
check entirely. -/
def jsAgeInvalid : Option Int → Bool
  | none => false
  | some a => if a == 0 then false else (decide (a < 1) || decide (a > 150))

/-- The stored age of `server.js` (`age || null`): an absent age and the
falsy number 0 are both stored as null. -/
def jsAgeStored : Option Int → Option Int
  | none => none
  | some a => if a == 0 then none else some a

/-- The `SELECT * FROM "dbName".users` read issued by the user handlers;
fails like the driver when the schema or its `users` table is missing. -/
def queryUsersTable (env : Env) (st : DBState) (dbName : String) :
    Except DBError (List Row) :=
  match lookupSchema st dbName with
  | none => .error (.unknownSchema dbName)
  | some d =>
    match d.users with
    | none => .error (.storageUnavailable s!"relation {dbName}.users does not exist")
    | some rows =>
        if env.faultQuery then .error (.storageUnavailable "storage unavailable")
        else .ok rows

/-- The parameterised `INSERT INTO "dbName".users` of the create-user
handler: raises the driver's unique violation when the email is taken,
otherwise appends the new row with the next serial id. -/
def insertUser (env : Env) (st : DBState) (dbName nm em : String) (ag : Option Int) :
    Except DBError Row × DBState × List Stmt :=
  match lookupSchema st dbName with
  | none => (.error (.unknownSchema dbName), st, [.dml dbName])
  | some d =>
    match d.users with
    | none => (.error (.storageUnavailable s!"relation {dbName}.users does not exist"), st, [.dml dbName])
    | some rows =>
      if env.faultInsert then
        (.error (.storageUnavailable "storage unavailable"), st, [.dml dbName])
      else if hasEmail rows em then
        (.error .uniqueViolation, st, [.dml dbName])
      else
        (.ok ⟨nextId rows, nm, em, ag⟩,
         setSchema st dbName ⟨some (rows ++ [⟨nextId rows, nm, em, ag⟩])⟩,
         [.dml dbName])

/-- The parameterised `UPDATE "dbName".users ... WHERE id = $4` of the
update-user handler: `ok none` models an empty RETURNING set (no row with
that id), a unique violation fires when the new email belongs to a
different row. -/
def updateUserRow (env : Env) (st : DBState) (dbName : String) (i : Nat)
    (nm em : String) (ag : Option Int) :
    Except DBError (Option Row) × DBState × List Stmt :=
  match lookupSchema st dbName with
  | none => (.error (.unknownSchema dbName), st, [.dml dbName])
  | some d =>
    match d.users with
    | none => (.error (.storageUnavailable s!"relation {dbName}.users does not exist"), st, [.dml dbName])
    | some rows =>
      if env.faultInsert then
        (.error (.storageUnavailable "storage unavailable"), st, [.dml dbName])
      else
        match rows.find? (fun r => r.id == i) with
        | none => (.ok none, st, [.dml dbName])
        | some _ =>
          if rows.any (fun r => !(r.id == i) && r.email == em) then
            (.error .uniqueViolation, st, [.dml dbName])
          else
            (.ok (some ⟨i, nm, em, ag⟩),
             setSchema st dbName
               ⟨some (rows.map (fun r => if r.id == i then ⟨r.id, nm, em, ag⟩ else r))⟩,
             [.dml dbName])

/-- Handler of `GET /api/databases` (`server.js` lines 55–68): list the
schemas, mapping any storage failure to 500 with the stable kind
`Failed to list databases`. -/
def listDatabasesHandler (env : Env) (st : DBState) : Response × DBState × List Stmt :=
  match listDatabases env st with
  | (.ok _, st1, tr) => ({ status := 200 }, st1, tr)
  | (.error e, st1, tr) =>
      ({ status := 500, error := some "Failed to list databases",
         message := some (errMessage e) }, st1, tr)

/-- Handler of `POST /api/databases` (`server.js` lines 71–99): a falsy
name is rejected with 400; otherwise `createDatabase` then `initDatabase`
run inside one try block whose catch maps EVERY thrown error to 400
`Failed to create schema`.  A failure of `initDatabase` after a successful
`createDatabase` is caught without undoing the creation. -/
def createHandler (env : Env) (st : DBState) (nameOpt : Option String) :
    Response × DBState × List Stmt :=
  if jsTruthy nameOpt = false then
    ({ status := 400, error := some "Schema name is required" }, st, [])
  else
    let name := nameOpt.getD ""
    match createDatabase env st name with
    | (.error e, st1, tr1) =>
        ({ status := 400, error := some "Failed to create schema",
           message := some (errMessage e) }, st1, tr1)
    | (.ok _, st1, tr1) =>
      match initDatabase env st1 name with
      | (.error e, st2, tr2) =>
          ({ status := 400, error := some "Failed to create schema",
             message := some (errMessage e) }, st2, tr1 ++ tr2)
      | (.ok _, st2, tr2) => ({ status := 201 }, st2, tr1 ++ tr2)

/-- Handler of `GET /api/databases/:name/exists` (`server.js` lines
102–121): a read-only existence probe answering 200 with the boolean. -/
def existsHandler (st : DBState) (name : String) : Response × DBState × List Stmt :=
  ({ status := 200, existsFlag := some (databaseExists st name) }, st, [.catalogRead name])

/-- Handler of `POST /api/databases/:name/initialize` (`server.js` lines
124–147): 404 when the schema is absent, otherwise `initDatabase`, with
caught errors mapped to 500. -/
def initializeHandler (env : Env) (st : DBState) (name : String) :
    Response × DBState × List Stmt :=
  if databaseExists st name = false then
    ({ status := 404, error := some "Schema not found",
       message := some s!"Schema {name} does not exist" }, st, [.catalogRead name])
  else
    match initDatabase env st name with
    | (.ok _, st1, tr) => ({ status := 200 }, st1, .catalogRead name :: tr)
    | (.error e, st1, tr) =>
        ({ status := 500, error := some "Failed to initialize schema",
           message := some (errMessage e) }, st1, .catalogRead name :: tr)

/-- Handler of `GET /api/databases/:name/export` (`server.js` lines
150–173): 404 when absent, otherwise the snapshot, caught errors to 500. -/
def exportHandler (env : Env) (st : DBState) (name : String) :
    Response × DBState × List Stmt :=
  if databaseExists st name = false then
    ({ status := 404, error := some "Schema not found",
       message := some s!"Schema {name} does not exist" }, st, [.catalogRead name])
  else
    match exportDatabase env st name with
    | (.ok _, st1, tr) => ({ status := 200 }, st1, .catalogRead name :: tr)
    | (.error e, st1, tr) =>
        ({ status := 500, error := some "Failed to export schema",
           message := some (errMessage e) }, st1, .catalogRead name :: tr)

/-- Handler of `POST /api/databases/migrate` (`server.js` lines 176–216):
falsy names are rejected with 400; a missing source, then a missing
target, answer 404 naming the missing schema before any row is touched;
only then does `migrateDatabase` run, its caught errors mapped to 500. -/
def migrateHandler (env : Env) (st : DBState) (srcOpt tgtOpt : Option String) :
    Response × DBState × List Stmt :=
  if !(jsTruthy srcOpt) || !(jsTruthy tgtOpt) then
    ({ status := 400, error := some "Source and target schema names are required" }, st, [])
  else
    let src := srcOpt.getD ""
    let tgt := tgtOpt.getD ""
    if databaseExists st src = false then
      ({ status := 404, error := some "Source schema not found",
         message := some s!"Schema {src} does not exist" }, st, [.catalogRead src])
    else if databaseExists st tgt = false then
      ({ status := 404, error := some "Target schema not found",
         message := some s!"Schema {tgt} does not exist. Create it first." }, st,
       [.catalogRead src, .catalogRead tgt])
    else
      match migrateDatabase env st src tgt with
      | (.ok r, st1, tr) =>
          ({ status := 200, migration := some r }, st1,
           .catalogRead src :: .catalogRead tgt :: tr)
      | (.error e, st1, tr) =>
          ({ status := 500, error := some "Failed to migrate schema",
             message := some (errMessage e) }, st1,
           .catalogRead src :: .catalogRead tgt :: tr)

/-- Handler of `GET /api/databases/:dbName/users` (`server.js` lines
240–265): existence probe, then the pool, then the interpolated SELECT;
caught errors map to 500 `Internal server error`. -/
def listUsersHandler (env : Env) (st : DBState) (dbName : String) :
    Response × DBState × List Stmt :=
  if databaseExists st dbName = false then
    ({ status := 404, error := some "Schema not found" }, st, [.catalogRead dbName])
  else
    match getPoolForDatabase st dbName with
    | .error e =>
        ({ status := 500, error := some "Internal server error",
           message := some (errMessage e) }, st, [.catalogRead dbName])
    | .ok _ =>
      match queryUsersTable env st dbName with
      | .ok _ => ({ status := 200 }, st, [.catalogRead dbName, .dml dbName])
      | .error e =>
          ({ status := 500, error := some "Internal server error",
             message := some (errMessage e) }, st, [.catalogRead dbName, .dml dbName])

/-- Handler of `GET /api/databases/:dbName/users/:id` (`server.js` lines
268–297): like the list handler but answering 404 `User not found` when
the id matches no row. -/
def getUserHandler (env : Env) (st : DBState) (dbName : String) (i : Nat) :
    Response × DBState × List Stmt :=
  if databaseExists st dbName = false then
    ({ status := 404, error := some "Schema not found" }, st, [.catalogRead dbName])
  else
    match getPoolForDatabase st dbName with
    | .error e =>
        ({ status := 500, error := some "Internal server error",
           message := some (errMessage e) }, st, [.catalogRead dbName])
    | .ok _ =>
      match queryUsersTable env st dbName with
      | .ok rows =>
        match rows.find? (fun r => r.id == i) with
        | some _ => ({ status := 200 }, st, [.catalogRead dbName, .dml dbName])
        | none =>
            ({ status := 404, error := some "User not found" }, st,
             [.catalogRead dbName, .dml dbName])
      | .error e =>
          ({ status := 500, error := some "Internal server error",
             message := some (errMessage e) }, st, [.catalogRead dbName, .dml dbName])

/-- Handler of `POST /api/databases/:dbName/users` (`server.js` lines
300–350): body validation (falsy name/email, then the age guard with its
falsy-zero hole), the existence probe, then the interpolated INSERT; the
driver's unique-violation code is normalised to 400 `Email already
exists`, every other caught error to 500. -/
def createUserHandler (env : Env) (st : DBState) (dbName : String)
    (nm em : Option String) (ag : Option Int) : Response × DBState × List Stmt :=
  if !(jsTruthy nm) || !(jsTruthy em) then
    ({ status := 400, error := some "Name and email are required" }, st, [])
  else if jsAgeInvalid ag then
    ({ status := 400, error := some "Age must be between 1 and 150" }, st, [])
  else if databaseExists st dbName = false then
    ({ status := 404, error := some "Schema not found" }, st, [.catalogRead dbName])
  else
    match getPoolForDatabase st dbName with
    | .error e =>
        ({ status := 500, error := some "Internal server error",
           message := some (errMessage e) }, st, [.catalogRead dbName])
    | .ok _ =>
      match insertUser env st dbName (nm.getD "") (em.getD "") (jsAgeStored ag) with
      | (.ok _, st1, tr) => ({ status := 201 }, st1, .catalogRead dbName :: tr)
      | (.error .uniqueViolation, st1, tr) =>
          ({ status := 400, error := some "Email already exists" }, st1,
           .catalogRead dbName :: tr)
      | (.error e, st1, tr) =>
          ({ status := 500, error := some "Internal server error",
             message := some (errMessage e) }, st1, .catalogRead dbName :: tr)

/-- Handler of `PUT /api/databases/:dbName/users/:id` (`server.js` lines
353–408): the same body validation as creation, then the interpolated
UPDATE; empty RETURNING answers 404 `User not found`, the unique-violation
code is normalised to 400, other caught errors to 500. -/
def updateUserHandler (env : Env) (st : DBState) (dbName : String) (i : Nat)
    (nm em : Option String) (ag : Option Int) : Response × DBState × List Stmt :=
  if !(jsTruthy nm) || !(jsTruthy em) then
    ({ status := 400, error := some "Name and email are required" }, st, [])
  else if jsAgeInvalid ag then
    ({ status := 400, error := some "Age must be between 1 and 150" }, st, [])
  else if databaseExists st dbName = false then
    ({ status := 404, error := some "Schema not found" }, st, [.catalogRead dbName])
  else
    match getPoolForDatabase st dbName with
    | .error e =>
        ({ status := 500, error := some "Internal server error",
           message := some (errMessage e) }, st, [.catalogRead dbName])
    | .ok _ =>
      match updateUserRow env st dbName i (nm.getD "") (em.getD "") (jsAgeStored ag) with
      | (.ok (some _), st1, tr) => ({ status := 200 }, st1, .catalogRead dbName :: tr)
      | (.ok none, st1, tr) =>
          ({ status := 404, error := some "User not found" }, st1,
           .catalogRead dbName :: tr)
      | (.error .uniqueViolation, st1, tr) =>
          ({ status := 400, error := some "Email already exists" }, st1,
           .catalogRead dbName :: tr)
      | (.error e, st1, tr) =>
          ({ status := 500, error := some "Internal server error",
             message := some (errMessage e) }, st1, .catalogRead dbName :: tr)

/-- Handler of `DELETE /api/databases/:dbName/users/:id` (`server.js`
lines 411–444): existence probe, then the interpolated DELETE; empty
RETURNING answers 404 `User not found`. -/
def deleteUserHandler (env : Env) (st : DBState) (dbName : String) (i : Nat) :
    Response × DBState × List Stmt :=
  if databaseExists st dbName = false then
    ({ status := 404, error := some "Schema not found" }, st, [.catalogRead dbName])
  else
    match getPoolForDatabase st dbName with
    | .error e =>
        ({ status := 500, error := some "Internal server error",
           message := some (errMessage e) }, st, [.catalogRead dbName])
    | .ok _ =>
      match queryUsersTable env st dbName with
      | .ok rows =>
        match rows.find? (fun r => r.id == i) with
        | some _ =>
            ({ status := 200, message := some "User deleted successfully" },
             setSchema st dbName ⟨some (rows.filter (fun r => !(r.id == i)))⟩,
             [.catalogRead dbName, .dml dbName])
        | none =>
            ({ status := 404, error := some "User not found" }, st,
             [.catalogRead dbName, .dml dbName])
      | .error e =>
          ({ status := 500, error := some "Internal server error",
             message := some (errMessage e) }, st, [.catalogRead dbName, .dml dbName])

/-- Every character the spec singles out is outside the identifier
grammar. -/
theorem isValidIdentChar_forbidden : ∀ c ∈ forbiddenChars, isValidIdentChar c = false := by
  decide

/-- A string containing a quote, space or semicolon fails the identifier
grammar. -/
theorem validateIdentifier_eq_false_of_forbidden (s : String)
    (h : ∃ c ∈ s.data, c ∈ forbiddenChars) : validateIdentifier s = false := by
  obtain ⟨c, hc, hf⟩ := h
  have hchar : isValidIdentChar c = false := isValidIdentChar_forbidden c hf
  have hall : s.data.all isValidIdentChar = false := by
    by_contra hcon
    have htrue : s.data.all isValidIdentChar = true := by
      cases hx : s.data.all isValidIdentChar
      · exact absurd hx hcon
      · rfl
    have := List.all_eq_true.mp htrue c hc
    rw [hchar] at this
    exact Bool.false_ne_true this
  simp [validateIdentifier, hall]

/-- A string containing a forbidden character is nonempty. -/
theorem ne_empty_of_forbidden (s : String)
    (h : ∃ c ∈ s.data, c ∈ forbiddenChars) : (s == "") = false := by
  cases hx : s == ""
  · rfl
  · obtain ⟨c, hc, _⟩ := h
    have hs : s = "" := eq_of_beq hx
    subst hs
    simp at hc

/-- In a catalog whose names all passed the validator, an invalid name is
never found. -/
theorem lookupSchema_eq_none_of_invalid (st : DBState) (s : String)
    (hg : goodState st = true) (hv : validateIdentifier s = false) :
    lookupSchema st s = none := by
  unfold lookupSchema
  cases hfind : st.schemas.find? (fun p => p.1 == s) with
  | none => rfl
  | some p =>
    exfalso
    have hmem := List.mem_of_find?_eq_some hfind
    have hp : (p.1 == s) = true :=
      @List.find?_some _ (fun q => q.1 == s) p st.schemas hfind
    have hps : p.1 = s := by simpa using hp
    have hall : st.schemas.all (fun q => validateIdentifier q.1) = true := hg
    have hgood : validateIdentifier p.1 = true := List.all_eq_true.mp hall p hmem
    rw [hps] at hgood
    rw [hv] at hgood
    exact Bool.false_ne_true hgood

/-- In a good catalog, an invalid name does not exist. -/
theorem databaseExists_eq_false_of_invalid (st : DBState) (s : String)
    (hg : goodState st = true) (hv : validateIdentifier s = false) :
    databaseExists st s = false := by
  simp [databaseExists, lookupSchema_eq_none_of_invalid st s hg hv]

/-- Updating a schema rewrites exactly the catalog entry with that name. -/
theorem find?_set_list (l : List (String × SchemaData)) (n : String) (d : SchemaData) :
    (l.map (fun p => if p.1 == n then (p.1, d) else p)).find? (fun p => p.1 == n) =
      (l.find? (fun p => p.1 == n)).map (fun p => (p.1, d)) := by
  induction l with
  | nil => rfl
  | cons a l ih =>
    by_cases ha : (a.1 == n) = true
    · simp only [List.map_cons, ha, if_true]
      rw [List.find?_cons_of_pos, List.find?_cons_of_pos]
      · simp
      · exact ha
      · exact ha
    · have ha' : (a.1 == n) = false := by simpa using ha
      simp only [List.map_cons, ha', if_false]
      rw [List.find?_cons_of_neg, List.find?_cons_of_neg]
      · exact ih
      · simpa using ha'
      · simpa using ha'

/-- Looking up a schema right after rewriting it yields the new data. -/
theorem lookupSchema_setSchema_self (st : DBState) (n : String) (d : SchemaData)
    (h : databaseExists st n = true) :
    lookupSchema (setSchema st n d) n = some d := by
  unfold databaseExists lookupSchema at h
  unfold lookupSchema setSchema
  rw [find?_set_list]
  cases hfind : st.schemas.find? (fun p => p.1 == n) with
  | none => rw [hfind] at h; simp at h
  | some p => rfl

/-- A rewritten schema still exists. -/
theorem databaseExists_setSchema_self (st : DBState) (n : String) (d : SchemaData)
    (h : databaseExists st n = true) :
    databaseExists (setSchema st n d) n = true := by
  simp [databaseExists, lookupSchema_setSchema_self st n d h]

/-- Rewriting the same schema twice keeps only the last write. -/
theorem setSchema_setSchema (st : DBState) (n : String) (d1 d2 : SchemaData) :
    setSchema (setSchema st n d1) n d2 = setSchema st n d2 := by
  unfold setSchema
  congr 1
  rw [List.map_map]
  have hfun : ((fun p : String × SchemaData => if p.1 == n then (p.1, d2) else p) ∘
      (fun p : String × SchemaData => if p.1 == n then (p.1, d1) else p)) =
      (fun p : String × SchemaData => if p.1 == n then (p.1, d2) else p) := by
    funext p
    by_cases hp : p.1 = n
    · simp [hp]
    · simp [hp]
  rw [hfun]

/-- A freshly added schema is found with no tables. -/
theorem lookupSchema_addSchema_self (st : DBState) (n : String) :
    lookupSchema (addSchema st n) n = some ⟨none⟩ := by
  simp [lookupSchema, addSchema, List.find?_cons_of_pos]

/-- A freshly added schema exists. -/
theorem databaseExists_addSchema_self (st : DBState) (n : String) :
    databaseExists (addSchema st n) n = true := by
  simp [databaseExists, lookupSchema_addSchema_self]

/-- Appending one row on the right extends the unique-email check by that
row's email. -/
theorem hasEmail_append_singleton (acc : List Row) (r : Row) (e : String) :
    hasEmail (acc ++ [r]) e = (hasEmail acc e || (r.email == e)) := by
  simp [hasEmail, List.any_append]

/-- Closed form of the Migrator's copy loop when the source emails are
pairwise distinct (the unique constraint of the source table): the target
keeps its rows in place, exactly the source rows whose email is absent
from the initial target are appended in order, and the conflict count is
the number of source rows whose email is already present. -/
theorem migrateRows_eq (rs : List Row) : ∀ acc : List Row,
    (rs.map Row.email).Nodup →
    migrateRows acc rs =
      (acc ++ rs.filter (fun r => !(hasEmail acc r.email)),
       (rs.filter (fun r => hasEmail acc r.email)).length) := by
  induction rs with
  | nil => intro acc _; simp [migrateRows]
  | cons r rs ih =>
    intro acc h
    rw [List.map_cons, List.nodup_cons] at h
    obtain ⟨hnotin, hnd⟩ := h
    by_cases hc : hasEmail acc r.email = true
    · simp only [migrateRows, hc, if_true]
      rw [ih acc hnd]
      simp [List.filter_cons, hc]
    · have hc' : hasEmail acc r.email = false := by simpa using hc
      simp only [migrateRows, hc', Bool.false_eq_true, if_false]
      rw [ih (acc ++ [r]) hnd]
      have hagree : ∀ x ∈ rs, hasEmail (acc ++ [r]) x.email = hasEmail acc x.email := by
        intro x hx
        rw [hasEmail_append_singleton]
        have hne : (r.email == x.email) = false := by
          cases hbe : r.email == x.email
          · rfl
          · exact absurd ((eq_of_beq hbe) ▸ List.mem_map_of_mem Row.email hx) hnotin
        simp [hne]
      have hf1 : rs.filter (fun x => !(hasEmail (acc ++ [r]) x.email)) =
          rs.filter (fun x => !(hasEmail acc x.email)) := by
        apply List.filter_congr
        intro x hx
        rw [hagree x hx]
      have hf2 : rs.filter (fun x => hasEmail (acc ++ [r]) x.email) =
          rs.filter (fun x => hasEmail acc x.email) := by
        apply List.filter_congr
        intro x hx
        rw [hagree x hx]
      rw [hf1, hf2]
      simp [List.filter_cons, hc']

/-- The migrate endpoint's 404 answers for a missing source or target,
with the full response, untouched state and catalog-only trace. -/
theorem migrateHandler_missing (env : Env) (st : DBState) (src tgt : String)
    (hs : (src == "") = false) (ht : (tgt == "") = false) :
    (databaseExists st src = false →
      migrateHandler env st (some src) (some tgt) =
        ({ status := 404, error := some "Source schema not found",
           message := some s!"Schema {src} does not exist" }, st, [.catalogRead src])) ∧
    (databaseExists st src = true → databaseExists st tgt = false →
      migrateHandler env st (some src) (some tgt) =
        ({ status := 404, error := some "Target schema not found",
           message := some s!"Schema {tgt} does not exist. Create it first." }, st,
         [.catalogRead src, .catalogRead tgt])) := by
  constructor
  · intro hx
    simp [migrateHandler, jsTruthy, hs, ht, hx]
  · intro hx1 hx2
    simp [migrateHandler, jsTruthy, hs, ht, hx1, hx2]

/-- C2: a migrate call whose source or target schema does not exist fails
with a 404 naming the missing schema, copies no row data (the state is
unchanged and only parameterised catalog reads are issued), and never
creates the missing target as a side effect. -/
theorem c2_migrate_requires_both_schemas (env : Env) (st : DBState) (src tgt : String)
    (hs : (src == "") = false) (ht : (tgt == "") = false) :
    (databaseExists st src = false →
      migrateHandler env st (some src) (some tgt) =
        ({ status := 404, error := some "Source schema not found",
           message := some s!"Schema {src} does not exist" }, st, [.catalogRead src])) ∧
    (databaseExists st src = true → databaseExists st tgt = false →
      migrateHandler env st (some src) (some tgt) =
        ({ status := 404, error := some "Target schema not found",
           message := some s!"Schema {tgt} does not exist. Create it first." }, st,
         [.catalogRead src, .catalogRead tgt]) ∧
      databaseExists (migrateHandler env st (some src) (some tgt)).2.1 tgt = false) := by
  obtain ⟨h1, h2⟩ := migrateHandler_missing env st src tgt hs ht
  refine ⟨h1, fun hx1 hx2 => ⟨h2 hx1 hx2, ?_⟩⟩
  rw [h2 hx1 hx2]
  exact hx2

/-- C2 witness: migrating between two never-created schemas answers 404
for the source and leaves the empty catalog untouched. -/
theorem c2_witness :
    (migrateHandler env0 ⟨[]⟩ (some "a") (some "b")).1.status = 404 ∧
    (migrateHandler env0 ⟨[]⟩ (some "a") (some "b")).1.error = some "Source schema not found" ∧
    (migrateHandler env0 ⟨[]⟩ (some "a") (some "b")).2.1 = ⟨[]⟩ := by
  have h := (c2_migrate_requires_both_schemas env0 ⟨[]⟩ "a" "b" (by decide) (by decide)).1
    (by decide)
  rw [h]
  exact ⟨rfl, rfl, rfl⟩

/-- C5: table initialisation is idempotent — on an existing schema the
first call answers 200, a second call in succession answers 200 again and
leaves the state exactly as after the first call (no column is dropped or
altered). -/
theorem c5_initialize_idempotent (env : Env) (st : DBState) (name : String)
    (hf : env.faultInit = false) (hv : validateIdentifier name = true)
    (hx : databaseExists st name = true) :
    (initializeHandler env st name).1.status = 200 ∧
    (initializeHandler env (initializeHandler env st name).2.1 name).1.status = 200 ∧
    (initializeHandler env (initializeHandler env st name).2.1 name).2.1 =
      (initializeHandler env st name).2.1 := by
  obtain ⟨d, hd⟩ : ∃ d, lookupSchema st name = some d := by
    cases h : lookupSchema st name with
    | none => rw [databaseExists, h] at hx; simp at hx
    | some d => exact ⟨d, rfl⟩
  have hd1 : lookupSchema (setSchema st name ⟨some (d.users.getD [])⟩) name =
      some ⟨some (d.users.getD [])⟩ := lookupSchema_setSchema_self st name _ hx
  have hx1 : databaseExists (setSchema st name ⟨some (d.users.getD [])⟩) name = true :=
    databaseExists_setSchema_self st name _ hx
  refine ⟨?_, ?_, ?_⟩ <;>
    simp [initializeHandler, initDatabase, hx, hv, hd, hf, hd1, hx1, setSchema_setSchema]

/-- C5 witness: initialising a fresh schema twice answers 200 both times
and the second call changes nothing. -/
theorem c5_witness :
    (initializeHandler env0 ⟨[("t", ⟨none⟩)]⟩ "t").1.status = 200 ∧
    (initializeHandler env0 (initializeHandler env0 ⟨[("t", ⟨none⟩)]⟩ "t").2.1 "t").1.status = 200 ∧
    (initializeHandler env0 (initializeHandler env0 ⟨[("t", ⟨none⟩)]⟩ "t").2.1 "t").2.1 =
      (initializeHandler env0 ⟨[("t", ⟨none⟩)]⟩ "t").2.1 :=
  c5_initialize_idempotent env0 ⟨[("t", ⟨none⟩)]⟩ "t" rfl (by decide) (by decide)

/-- C8: the existence endpoint is total and read-only — it always answers
200 with the boolean, never mutates the state, issues exactly one
parameterised catalog read, and on a syntactically invalid name (over a
catalog of validated names) it answers false instead of failing with a
validation error. -/
theorem c8_exists_total_readonly (st : DBState) (name : String) :
    (existsHandler st name).1.status = 200 ∧
    (existsHandler st name).2.1 = st ∧
    (existsHandler st name).2.2 = [.catalogRead name] ∧
    (existsHandler st name).1.existsFlag = some (databaseExists st name) ∧
    (goodState st = true → validateIdentifier name = false →
      (existsHandler st name).1.existsFlag = some false) := by
  refine ⟨rfl, rfl, rfl, rfl, ?_⟩
  intro hg hv
  simp [existsHandler, databaseExists_eq_false_of_invalid st name hg hv]

/-- C8 witness: probing the invalid name with a space answers the flag
false. -/
theorem c8_witness : (existsHandler ⟨[]⟩ "a b").1.existsFlag = some false := by
  have h := c8_exists_total_readonly ⟨[]⟩ "a b"
  exact h.2.2.2.2 (by decide) (by decide)

/-- C10: schema creation and table initialisation are not atomic — when
the creation statement succeeds but initialisation then fails, the
endpoint answers 400 while the newly created schema remains in the
catalog; and a 201 answer implies the schema exists with its tables
initialised. -/
theorem c10_create_not_atomic (env : Env) (st : DBState) (name : String)
    (hv : validateIdentifier name = true) (hx : databaseExists st name = false)
    (hc : env.faultCreate = false) :
    (env.faultInit = true →
      (createHandler env st (some name)).1.status = 400 ∧
      databaseExists (createHandler env st (some name)).2.1 name = true) ∧
    (env.faultInit = false →
      (createHandler env st (some name)).1.status = 201 ∧
      databaseExists (createHandler env st (some name)).2.1 name = true ∧
      lookupSchema (createHandler env st (some name)).2.1 name = some ⟨some []⟩) := by
  have hne : (name == "") = false := by
    cases h : name == ""
    · rfl
    · have hs : name = "" := eq_of_beq h
      subst hs
      exact absurd hv (by decide)
  have hadd : lookupSchema (addSchema st name) name = some ⟨none⟩ :=
    lookupSchema_addSchema_self st name
  have haddx : databaseExists (addSchema st name) name = true :=
    databaseExists_addSchema_self st name
  have hset : lookupSchema (setSchema (addSchema st name) name ⟨some []⟩) name =
      some ⟨some []⟩ := lookupSchema_setSchema_self (addSchema st name) name _ haddx
  have hsetx : databaseExists (setSchema (addSchema st name) name ⟨some []⟩) name = true :=
    databaseExists_setSchema_self (addSchema st name) name _ haddx
  constructor
  · intro hi
    refine ⟨?_, ?_⟩ <;>
      simp [createHandler, jsTruthy, hne, createDatabase, initDatabase, hv, hx, hc, hi,
        hadd, haddx]
  · intro hi
    refine ⟨?_, ?_, ?_⟩ <;>
      simp [createHandler, jsTruthy, hne, createDatabase, initDatabase, hv, hx, hc, hi,
        hadd, haddx, hset, hsetx]

/-- C10 witness: with a failing initialisation the endpoint answers 400
yet the schema exists afterwards; with healthy storage it answers 201 and
the schema is initialised. -/
theorem c10_witness :
    ((createHandler { faultInit := true } ⟨[]⟩ (some "abc")).1.status = 400 ∧
      databaseExists (createHandler { faultInit := true } ⟨[]⟩ (some "abc")).2.1 "abc" = true) ∧
    ((createHandler env0 ⟨[]⟩ (some "abc")).1.status = 201 ∧
      databaseExists (createHandler env0 ⟨[]⟩ (some "abc")).2.1 "abc" = true ∧
      lookupSchema (createHandler env0 ⟨[]⟩ (some "abc")).2.1 "abc" = some ⟨some []⟩) := by
  constructor
  · exact (c10_create_not_atomic { faultInit := true } ⟨[]⟩ "abc" (by decide) (by decide)
      rfl).1 rfl
  · exact (c10_create_not_atomic env0 ⟨[]⟩ "abc" (by decide) (by decide) rfl).2 rfl

/-- C9 counterexample: a create-user request with age equal to 0 on an
initialised schema is NOT rejected — the endpoint answers 201 and inserts
the row (with a null age), where the claim demands a validation error and
no insert. -/
theorem c9_counterexample :
    (createUserHandler env0 ⟨[("t", ⟨some []⟩)]⟩ "t"
        (some "Ana") (some "anaMail") (some 0)).1.status = 201 ∧
    (createUserHandler env0 ⟨[("t", ⟨some []⟩)]⟩ "t"
        (some "Ana") (some "anaMail") (some 0)).2.1 =
      ⟨[("t", ⟨some [⟨1, "Ana", "anaMail", none⟩]⟩)]⟩ := by
  constructor
  · rfl
  · rfl

/-- C9 amended: a create or update request whose age is present, nonzero
and outside 1–150 is rejected with 400 and no row is touched; an absent
age is stored as null; but an age equal to 0 is treated as absent by the
falsy `age &&` guard — it passes validation and is stored as null rather
than being rejected. -/
theorem c9_age_validation_amended (env : Env) (st : DBState) (dbName : String)
    (i : Nat) (nm em : String)
    (hnm : (nm == "") = false) (hem : (em == "") = false) :
    (∀ a : Int, a ≠ 0 → a < 1 ∨ a > 150 →
      createUserHandler env st dbName (some nm) (some em) (some a) =
        ({ status := 400, error := some "Age must be between 1 and 150" }, st, [])) ∧
    (∀ a : Int, a ≠ 0 → a < 1 ∨ a > 150 →
      updateUserHandler env st dbName i (some nm) (some em) (some a) =
        ({ status := 400, error := some "Age must be between 1 and 150" }, st, [])) ∧
    (∀ rows, validateIdentifier dbName = true →
      lookupSchema st dbName = some ⟨some rows⟩ →
      hasEmail rows em = false → env.faultInsert = false →
      ((createUserHandler env st dbName (some nm) (some em) none).1.status = 201 ∧
       lookupSchema (createUserHandler env st dbName (some nm) (some em) none).2.1 dbName =
         some ⟨some (rows ++ [⟨nextId rows, nm, em, none⟩])⟩) ∧
      ((createUserHandler env st dbName (some nm) (some em) (some 0)).1.status = 201 ∧
       lookupSchema (createUserHandler env st dbName (some nm) (some em) (some 0)).2.1 dbName =
         some ⟨some (rows ++ [⟨nextId rows, nm, em, none⟩])⟩)) := by
  have hagebad : ∀ a : Int, a ≠ 0 → a < 1 ∨ a > 150 → jsAgeInvalid (some a) = true := by
    intro a ha hr
    have haz : (a == 0) = false := by
      cases h : a == 0
      · rfl
      · exact absurd (eq_of_beq h) ha
    rcases hr with h | h
    · simp [jsAgeInvalid, haz, h]
    · simp [jsAgeInvalid, haz, h]
  refine ⟨?_, ?_, ?_⟩
  · intro a ha hr
    simp [createUserHandler, jsTruthy, hnm, hem, hagebad a ha hr]
  · intro a ha hr
    simp [updateUserHandler, jsTruthy, hnm, hem, hagebad a ha hr]
  · intro rows hv hd hmail hf
    have hx : databaseExists st dbName = true := by simp [databaseExists, hd]
    have hpool : getPoolForDatabase st dbName = .ok () := by
      simp [getPoolForDatabase, hv, hx]
    have hset : lookupSchema
        (setSchema st dbName ⟨some (rows ++ [⟨nextId rows, nm, em, none⟩])⟩) dbName =
        some ⟨some (rows ++ [⟨nextId rows, nm, em, none⟩])⟩ :=
      lookupSchema_setSchema_self st dbName _ hx
    refine ⟨⟨?_, ?_⟩, ⟨?_, ?_⟩⟩ <;>
      simp [createUserHandler, jsTruthy, hnm, hem, jsAgeInvalid, hx, hpool,
        insertUser, hd, hf, hmail, jsAgeStored, hset]

/-- C9 witness: age 200 is rejected on create and update without touching
the state; an absent age and a zero age are both stored as null. -/
theorem c9_witness :
    (createUserHandler env0 ⟨[("t", ⟨some []⟩)]⟩ "t"
        (some "Ana") (some "anaMail") (some 200) =
      ({ status := 400, error := some "Age must be between 1 and 150" },
       (⟨[("t", ⟨some []⟩)]⟩ : DBState), [])) ∧
    (updateUserHandler env0 ⟨[("t", ⟨some []⟩)]⟩ "t" 1
        (some "Ana") (some "anaMail") (some 200) =
      ({ status := 400, error := some "Age must be between 1 and 150" },
       (⟨[("t", ⟨some []⟩)]⟩ : DBState), [])) ∧
    (createUserHandler env0 ⟨[("t", ⟨some []⟩)]⟩ "t"
        (some "Ana") (some "anaMail") none).1.status = 201 ∧
    lookupSchema (createUserHandler env0 ⟨[("t", ⟨some []⟩)]⟩ "t"
        (some "Ana") (some "anaMail") none).2.1 "t" =
      some ⟨some [⟨1, "Ana", "anaMail", none⟩]⟩ := by
  have h := c9_age_validation_amended env0 ⟨[("t", ⟨some []⟩)]⟩ "t" 1 "Ana" "anaMail"
    (by decide) (by decide)
  have h3 := h.2.2 [] (by decide) rfl rfl rfl
  exact ⟨h.1 200 (by decide) (by decide), h.2.1 200 (by decide) (by decide),
    h3.1.1, h3.1.2⟩

/-- Creating a user whose email is already taken runs into the driver's
unique violation, which the handler normalises to 400 `Email already
exists` without leaking the driver's message. -/
theorem createUser_dup_email (env : Env) (st : DBState) (dbName : String)
    (nm em : String) (ag : Option Int) (rows : List Row)
    (hnm : (nm == "") = false) (hem : (em == "") = false)
    (hage : jsAgeInvalid ag = false)
    (hv : validateIdentifier dbName = true)
    (hd : lookupSchema st dbName = some ⟨some rows⟩)
    (hf : env.faultInsert = false)
    (hmail : hasEmail rows em = true) :
    createUserHandler env st dbName (some nm) (some em) ag =
      ({ status := 400, error := some "Email already exists" }, st,
       [.catalogRead dbName, .dml dbName]) := by
  have hx : databaseExists st dbName = true := by simp [databaseExists, hd]
  have hpool : getPoolForDatabase st dbName = .ok () := by
    simp [getPoolForDatabase, hv, hx]
  simp [createUserHandler, jsTruthy, hnm, hem, hage, hx, hpool, insertUser, hd, hf, hmail]

/-- Updating a user to an email already carried by a different row runs
into the driver's unique violation, which the handler normalises to 400
`Email already exists` without leaking the driver's message. -/
theorem updateUser_dup_email (env : Env) (st : DBState) (dbName : String) (i : Nat)
    (nm em : String) (ag : Option Int) (rows : List Row) (r0 : Row)
    (hnm : (nm == "") = false) (hem : (em == "") = false)
    (hage : jsAgeInvalid ag = false)
    (hv : validateIdentifier dbName = true)
    (hd : lookupSchema st dbName = some ⟨some rows⟩)
    (hf : env.faultInsert = false)
    (hfind : rows.find? (fun r => r.id == i) = some r0)
    (hdup : rows.any (fun r => !(r.id == i) && r.email == em) = true) :
    updateUserHandler env st dbName i (some nm) (some em) ag =
      ({ status := 400, error := some "Email already exists" }, st,
       [.catalogRead dbName, .dml dbName]) := by
  have hx : databaseExists st dbName = true := by simp [databaseExists, hd]
  have hpool : getPoolForDatabase st dbName = .ok () := by
    simp [getPoolForDatabase, hv, hx]
  simp [updateUserHandler, jsTruthy, hnm, hem, hage, hx, hpool, updateUserRow, hd, hf,
    hfind, hdup]

/-- C6 counterexample: a schema-creation call that fails with a storage
connectivity error — neither InvalidIdentifier nor AlreadyExists, the name
is valid and fresh — answers 400, not the 500 the claim requires. -/
theorem c6_counterexample :
    validateIdentifier "abc" = true ∧
    databaseExists ⟨[]⟩ "abc" = false ∧
    (createHandler { faultCreate := true } ⟨[]⟩ (some "abc")).1.status = 400 ∧
    ¬(createHandler { faultCreate := true } ⟨[]⟩ (some "abc")).1.status = 500 := by
  refine ⟨by decide, rfl, rfl, by decide⟩

/-- C6 amended: the creation endpoint maps EVERY failure — invalid name,
duplicate and storage failure alike — to 400 (its answers are only 201 or
400); at every other endpoint the claimed mapping holds: the existence
probe never fails, a missing schema answers 404 at each endpoint that
surfaces UnknownSchema (initialize, export, migrate source and target,
and all five user routes), a storage failure answers 500 at every
non-creation endpoint (listing, initialize, export, migrate, user
reads, inserts, updates and deletes), and the driver unique-violation
code answers 400 at both user write endpoints. -/
theorem c6_status_mapping_amended (env : Env) (st : DBState) :
    (∀ nmOpt, (createHandler env st nmOpt).1.status = 201 ∨
      (createHandler env st nmOpt).1.status = 400) ∧
    (∀ name, (name == "") = false → validateIdentifier name = false →
      (createHandler env st (some name)).1.status = 400) ∧
    (∀ name, (name == "") = false → databaseExists st name = true →
      (createHandler env st (some name)).1.status = 400) ∧
    (∀ name, (existsHandler st name).1.status = 200) ∧
    (env.faultList = true → (listDatabasesHandler env st).1.status = 500) ∧
    (∀ name i, databaseExists st name = false →
      (initializeHandler env st name).1.status = 404 ∧
      (exportHandler env st name).1.status = 404 ∧
      (listUsersHandler env st name).1.status = 404 ∧
      (getUserHandler env st name i).1.status = 404 ∧
      (deleteUserHandler env st name i).1.status = 404) ∧
    (∀ name i nm em ag, (nm == "") = false → (em == "") = false →
      jsAgeInvalid ag = false → databaseExists st name = false →
      (createUserHandler env st name (some nm) (some em) ag).1.status = 404 ∧
      (updateUserHandler env st name i (some nm) (some em) ag).1.status = 404) ∧
    (∀ src tgt, (src == "") = false → (tgt == "") = false →
      (databaseExists st src = false →
        (migrateHandler env st (some src) (some tgt)).1.status = 404) ∧
      (databaseExists st src = true → databaseExists st tgt = false →
        (migrateHandler env st (some src) (some tgt)).1.status = 404)) ∧
    (∀ name d, lookupSchema st name = some d → validateIdentifier name = true →
      (env.faultInit = true → (initializeHandler env st name).1.status = 500) ∧
      (env.faultExport = true → (exportHandler env st name).1.status = 500)) ∧
    (∀ name rows i, lookupSchema st name = some ⟨some rows⟩ →
      validateIdentifier name = true → env.faultQuery = true →
      (listUsersHandler env st name).1.status = 500 ∧
      (getUserHandler env st name i).1.status = 500 ∧
      (deleteUserHandler env st name i).1.status = 500) ∧
    (∀ name rows i nm em ag, (nm == "") = false → (em == "") = false →
      jsAgeInvalid ag = false → lookupSchema st name = some ⟨some rows⟩ →
      validateIdentifier name = true → env.faultInsert = true →
      (createUserHandler env st name (some nm) (some em) ag).1.status = 500 ∧
      (updateUserHandler env st name i (some nm) (some em) ag).1.status = 500) ∧
    (∀ src tgt sd td, (src == "") = false → (tgt == "") = false →
      validateIdentifier src = true → validateIdentifier tgt = true →
      lookupSchema st src = some sd → lookupSchema st tgt = some td →
      env.faultMigrate = true →
      (migrateHandler env st (some src) (some tgt)).1.status = 500) ∧
    (∀ dbName nm em ag rows, (nm == "") = false → (em == "") = false →
      jsAgeInvalid ag = false → validateIdentifier dbName = true →
      lookupSchema st dbName = some ⟨some rows⟩ → env.faultInsert = false →
      hasEmail rows em = true →
      (createUserHandler env st dbName (some nm) (some em) ag).1 =
        { status := 400, error := some "Email already exists" }) ∧
    (∀ dbName i nm em ag rows r0, (nm == "") = false → (em == "") = false →
      jsAgeInvalid ag = false → validateIdentifier dbName = true →
      lookupSchema st dbName = some ⟨some rows⟩ → env.faultInsert = false →
      rows.find? (fun r => r.id == i) = some r0 →
      rows.any (fun r => !(r.id == i) && r.email == em) = true →
      (updateUserHandler env st dbName i (some nm) (some em) ag).1 =
        { status := 400, error := some "Email already exists" }) := by
  refine ⟨?_, ?_, ?_, ?_, ?_, ?_, ?_, ?_, ?_, ?_, ?_, ?_, ?_, ?_⟩
  · intro nmOpt
    by_cases h : jsTruthy nmOpt = false
    · right
      simp [createHandler, h]
    · unfold createHandler
      rw [if_neg h]
      rcases hcr : createDatabase env st (nmOpt.getD "") with ⟨r1, st1, tr1⟩
      cases r1 with
      | error e => right; simp [hcr]
      | ok u =>
        rcases hin : initDatabase env st1 (nmOpt.getD "") with ⟨r2, st2, tr2⟩
        cases r2 with
        | error e => right; simp [hcr, hin]
        | ok u2 => left; simp [hcr, hin]
  · intro name hne hvF
    simp [createHandler, jsTruthy, hne, createDatabase, hvF]
  · intro name hne hx
    by_cases hv : validateIdentifier name = true
    · simp [createHandler, jsTruthy, hne, createDatabase, hv, hx]
    · have hvF : validateIdentifier name = false := by
        cases h : validateIdentifier name
        · rfl
        · exact absurd h hv
      simp [createHandler, jsTruthy, hne, createDatabase, hvF]
  · intro name
    rfl
  · intro hfl
    simp [listDatabasesHandler, listDatabases, hfl]
  · intro name i hx
    refine ⟨?_, ?_, ?_, ?_, ?_⟩ <;>
      simp [initializeHandler, exportHandler, listUsersHandler, getUserHandler,
        deleteUserHandler, hx]
  · intro name i nm em ag hnm hem hage hx
    constructor <;>
      simp [createUserHandler, updateUserHandler, jsTruthy, hnm, hem, hage, hx]
  · intro src tgt hs ht
    obtain ⟨h1, h2⟩ := migrateHandler_missing env st src tgt hs ht
    exact ⟨fun hx => by rw [h1 hx], fun hx1 hx2 => by rw [h2 hx1 hx2]⟩
  · intro name d hd hv
    have hx : databaseExists st name = true := by simp [databaseExists, hd]
    constructor
    · intro hfi
      simp [initializeHandler, hx, initDatabase, hv, hd, hfi]
    · intro hfe
      simp [exportHandler, hx, exportDatabase, hv, hd, hfe]
  · intro name rows i hd hv hfq
    have hx : databaseExists st name = true := by simp [databaseExists, hd]
    have hpool : getPoolForDatabase st name = .ok () := by
      simp [getPoolForDatabase, hv, hx]
    refine ⟨?_, ?_, ?_⟩ <;>
      simp [listUsersHandler, getUserHandler, deleteUserHandler, hx, hpool,
        queryUsersTable, hd, hfq]
  · intro name rows i nm em ag hnm hem hage hd hv hfi
    have hx : databaseExists st name = true := by simp [databaseExists, hd]
    have hpool : getPoolForDatabase st name = .ok () := by
      simp [getPoolForDatabase, hv, hx]
    constructor <;>
      simp [createUserHandler, updateUserHandler, jsTruthy, hnm, hem, hage, hx,
        hpool, insertUser, updateUserRow, hd, hfi]
  · intro src tgt sd td hs ht hvs hvt hsd htd hfm
    have hx1 : databaseExists st src = true := by simp [databaseExists, hsd]
    have hx2 : databaseExists st tgt = true := by simp [databaseExists, htd]
    simp [migrateHandler, jsTruthy, hs, ht, hx1, hx2, migrateDatabase, hvs, hvt,
      hsd, htd, hfm]
  · intro dbName nm em ag rows hnm hem hage hv hd hf hmail
    rw [createUser_dup_email env st dbName nm em ag rows hnm hem hage hv hd hf hmail]
  · intro dbName i nm em ag rows r0 hnm hem hage hv hd hf hfind hdup
    rw [updateUser_dup_email env st dbName i nm em ag rows r0 hnm hem hage hv hd hf
      hfind hdup]

/-- C6 witness: concrete instances of every amended mapping — creation in
the 201/400 range and 400 on an invalid or already-existing name, the
probe answering 200, 404 on missing schemas at initialize, export, user
routes and the migrate target, 500 on storage faults at listing,
initialize, export, user read, user insert and migrate, and 400 on a
duplicate email at create and update. -/
theorem c6_witness :
    ((createHandler env0 ⟨[]⟩ (some "abc")).1.status = 201 ∨
      (createHandler env0 ⟨[]⟩ (some "abc")).1.status = 400) ∧
    (createHandler env0 ⟨[]⟩ (some "a b")).1.status = 400 ∧
    (createHandler env0 ⟨[("abc", ⟨some []⟩)]⟩ (some "abc")).1.status = 400 ∧
    (existsHandler ⟨[]⟩ "x").1.status = 200 ∧
    (listDatabasesHandler { faultList := true } ⟨[]⟩).1.status = 500 ∧
    (initializeHandler env0 ⟨[]⟩ "g").1.status = 404 ∧
    (exportHandler env0 ⟨[]⟩ "g").1.status = 404 ∧
    (listUsersHandler env0 ⟨[]⟩ "g").1.status = 404 ∧
    (getUserHandler env0 ⟨[]⟩ "g" 1).1.status = 404 ∧
    (deleteUserHandler env0 ⟨[]⟩ "g" 1).1.status = 404 ∧
    (createUserHandler env0 ⟨[]⟩ "g" (some "N") (some "E") none).1.status = 404 ∧
    (updateUserHandler env0 ⟨[]⟩ "g" 1 (some "N") (some "E") none).1.status = 404 ∧
    (migrateHandler env0 ⟨[("a", ⟨some []⟩)]⟩ (some "a") (some "b")).1.status = 404 ∧
    (initializeHandler { faultInit := true } ⟨[("t", ⟨some []⟩)]⟩ "t").1.status = 500 ∧
    (exportHandler { faultExport := true } ⟨[("t", ⟨some []⟩)]⟩ "t").1.status = 500 ∧
    (listUsersHandler { faultQuery := true } ⟨[("t", ⟨some []⟩)]⟩ "t").1.status = 500 ∧
    (createUserHandler { faultInsert := true } ⟨[("t", ⟨some []⟩)]⟩ "t"
        (some "N") (some "E") none).1.status = 500 ∧
    (migrateHandler { faultMigrate := true }
        ⟨[("a", ⟨some []⟩), ("b", ⟨some []⟩)]⟩ (some "a") (some "b")).1.status = 500 ∧
    (createUserHandler env0 ⟨[("t", ⟨some [⟨1, "A", "dup", none⟩]⟩)]⟩ "t"
        (some "B") (some "dup") none).1 =
      { status := 400, error := some "Email already exists" } ∧
    (updateUserHandler env0
        ⟨[("t", ⟨some [⟨1, "A", "e1", none⟩, ⟨2, "B", "e2", none⟩]⟩)]⟩ "t" 1
        (some "C") (some "e2") none).1 =
      { status := 400, error := some "Email already exists" } := by
  obtain ⟨e1, e2, e3, e4, e5, e6, e7, e8, e9, e10, e11, e12, e13, e14⟩ :=
    c6_status_mapping_amended env0 ⟨[]⟩
  obtain ⟨x1, x2, x3, x4, x5, x6, x7, x8, x9, x10, x11, x12, x13, x14⟩ :=
    c6_status_mapping_amended env0 ⟨[("abc", ⟨some []⟩)]⟩
  obtain ⟨l1, l2, l3, l4, l5, l6, l7, l8, l9, l10, l11, l12, l13, l14⟩ :=
    c6_status_mapping_amended { faultList := true } (⟨[]⟩ : DBState)
  obtain ⟨m1, m2, m3, m4, m5, m6, m7, m8, m9, m10, m11, m12, m13, m14⟩ :=
    c6_status_mapping_amended env0 ⟨[("a", ⟨some []⟩)]⟩
  obtain ⟨i1, i2, i3, i4, i5, i6, i7, i8, i9, i10, i11, i12, i13, i14⟩ :=
    c6_status_mapping_amended { faultInit := true } ⟨[("t", ⟨some []⟩)]⟩
  obtain ⟨p1, p2, p3, p4, p5, p6, p7, p8, p9, p10, p11, p12, p13, p14⟩ :=
    c6_status_mapping_amended { faultExport := true } ⟨[("t", ⟨some []⟩)]⟩
  obtain ⟨q1, q2, q3, q4, q5, q6, q7, q8, q9, q10, q11, q12, q13, q14⟩ :=
    c6_status_mapping_amended { faultQuery := true } ⟨[("t", ⟨some []⟩)]⟩
  obtain ⟨n1, n2, n3, n4, n5, n6, n7, n8, n9, n10, n11, n12, n13, n14⟩ :=
    c6_status_mapping_amended { faultInsert := true } ⟨[("t", ⟨some []⟩)]⟩
  obtain ⟨g1, g2, g3, g4, g5, g6, g7, g8, g9, g10, g11, g12, g13, g14⟩ :=
    c6_status_mapping_amended { faultMigrate := true }
      ⟨[("a", ⟨some []⟩), ("b", ⟨some []⟩)]⟩
  obtain ⟨d1, d2, d3, d4, d5, d6, d7, d8, d9, d10, d11, d12, d13, d14⟩ :=
    c6_status_mapping_amended env0 ⟨[("t", ⟨some [⟨1, "A", "dup", none⟩]⟩)]⟩
  obtain ⟨u1, u2, u3, u4, u5, u6, u7, u8, u9, u10, u11, u12, u13, u14⟩ :=
    c6_status_mapping_amended env0
      ⟨[("t", ⟨some [⟨1, "A", "e1", none⟩, ⟨2, "B", "e2", none⟩]⟩)]⟩
  obtain ⟨w1, w2, w3, w4, w5⟩ := e6 "g" 1 (by decide)
  obtain ⟨v1, v2⟩ := e7 "g" 1 "N" "E" none (by decide) (by decide) rfl (by decide)
  refine ⟨e1 (some "abc"), e2 "a b" (by decide) (by decide),
    x3 "abc" (by decide) (by decide), e4 "x", l5 rfl,
    w1, w2, w3, w4, w5, v1, v2,
    (m8 "a" "b" (by decide) (by decide)).2 (by decide) (by decide),
    (i9 "t" ⟨some []⟩ rfl (by decide)).1 rfl,
    (p9 "t" ⟨some []⟩ rfl (by decide)).2 rfl,
    (q10 "t" [] 1 rfl (by decide) rfl).1,
    (n11 "t" [] 1 "N" "E" none (by decide) (by decide) rfl rfl (by decide) rfl).1,
    g12 "a" "b" ⟨some []⟩ ⟨some []⟩ (by decide) (by decide) (by decide) (by decide)
      rfl rfl rfl,
    d13 "t" "B" "dup" none [⟨1, "A", "dup", none⟩] (by decide) (by decide) rfl
      (by decide) rfl rfl (by decide),
    u14 "t" 1 "C" "e2" none [⟨1, "A", "e1", none⟩, ⟨2, "B", "e2", none⟩]
      ⟨1, "A", "e1", none⟩ (by decide) (by decide) rfl (by decide) rfl rfl
      (by decide) (by decide)⟩

/-- C4: migrating a source table whose emails are pairwise distinct (the
unique constraint of the source) into a freshly initialised, empty target
answers 200 with zero conflicts and a copied count equal to the source row
count, and the target ends up holding exactly the source rows. -/
theorem c4_migrate_into_empty_target (env : Env) (st : DBState) (src tgt : String)
    (srcRows : List Row)
    (hs : (src == "") = false) (ht : (tgt == "") = false)
    (hvs : validateIdentifier src = true) (hvt : validateIdentifier tgt = true)
    (hsrc : lookupSchema st src = some ⟨some srcRows⟩)
    (htgt : lookupSchema st tgt = some ⟨some []⟩)
    (hnd : (srcRows.map Row.email).Nodup)
    (hf : env.faultMigrate = false) :
    (migrateHandler env st (some src) (some tgt)).1.status = 200 ∧
    (migrateHandler env st (some src) (some tgt)).1.migration =
      some ⟨srcRows.length, 0, true⟩ ∧
    lookupSchema (migrateHandler env st (some src) (some tgt)).2.1 tgt =
      some ⟨some srcRows⟩ := by
  have hx1 : databaseExists st src = true := by simp [databaseExists, hsrc]
  have hx2 : databaseExists st tgt = true := by simp [databaseExists, htgt]
  have hrows := migrateRows_eq srcRows [] hnd
  have hneg : srcRows.filter (fun r => !(hasEmail [] r.email)) = srcRows := by
    rw [List.filter_eq_self]
    intro r _
    simp [hasEmail]
  have hpos : srcRows.filter (fun r => hasEmail [] r.email) = [] := by
    rw [List.filter_eq_nil_iff]
    intro r _
    simp [hasEmail]
  rw [hneg, hpos] at hrows
  simp only [List.nil_append, List.length_nil] at hrows
  have hset : lookupSchema (setSchema st tgt ⟨some srcRows⟩) tgt = some ⟨some srcRows⟩ :=
    lookupSchema_setSchema_self st tgt _ hx2
  refine ⟨?_, ?_, ?_⟩ <;>
    simp [migrateHandler, jsTruthy, hs, ht, hx1, hx2, migrateDatabase, hvs, hvt,
      hsrc, htgt, hf, hrows, hset]

/-- C4 witness: one source row, freshly initialised empty target — the
report says one row copied, zero conflicts, and the target holds the row. -/
theorem c4_witness :
    (migrateHandler env0 ⟨[("tenant_a", ⟨some [⟨1, "Ana", "anaMail", some 30⟩]⟩),
        ("tenant_b", ⟨some []⟩)]⟩ (some "tenant_a") (some "tenant_b")).1.status = 200 ∧
    (migrateHandler env0 ⟨[("tenant_a", ⟨some [⟨1, "Ana", "anaMail", some 30⟩]⟩),
        ("tenant_b", ⟨some []⟩)]⟩ (some "tenant_a") (some "tenant_b")).1.migration =
      some ⟨1, 0, true⟩ ∧
    lookupSchema (migrateHandler env0 ⟨[("tenant_a", ⟨some [⟨1, "Ana", "anaMail", some 30⟩]⟩),
        ("tenant_b", ⟨some []⟩)]⟩ (some "tenant_a") (some "tenant_b")).2.1 "tenant_b" =
      some ⟨some [⟨1, "Ana", "anaMail", some 30⟩]⟩ :=
  c4_migrate_into_empty_target env0
    ⟨[("tenant_a", ⟨some [⟨1, "Ana", "anaMail", some 30⟩]⟩), ("tenant_b", ⟨some []⟩)]⟩
    "tenant_a" "tenant_b" [⟨1, "Ana", "anaMail", some 30⟩]
    (by decide) (by decide) (by decide) (by decide) rfl rfl (by decide) rfl

/-- C3: when a pre-existing target row shares its unique email with a
source row, the migration still answers 200 with success (it is not
aborted); the conflicting source row is counted in the conflict tally and
is not copied; the pre-existing target rows — the matching one included —
are kept unchanged in place, and exactly the non-conflicting source rows
are appended; one single conflicting row yields a conflict count of
exactly one. -/
theorem c3_migrate_conflict_skipped (env : Env) (st : DBState) (src tgt : String)
    (srcRows tgtRows : List Row) (r t : Row)
    (hs : (src == "") = false) (ht : (tgt == "") = false)
    (hvs : validateIdentifier src = true) (hvt : validateIdentifier tgt = true)
    (hsrc : lookupSchema st src = some ⟨some srcRows⟩)
    (htgt : lookupSchema st tgt = some ⟨some tgtRows⟩)
    (hnd : (srcRows.map Row.email).Nodup)
    (hr : r ∈ srcRows) (htm : t ∈ tgtRows) (hemail : t.email = r.email)
    (hf : env.faultMigrate = false) :
    (migrateHandler env st (some src) (some tgt)).1.status = 200 ∧
    (migrateHandler env st (some src) (some tgt)).1.migration =
      some ⟨srcRows.length - (srcRows.filter (fun x => hasEmail tgtRows x.email)).length,
            (srcRows.filter (fun x => hasEmail tgtRows x.email)).length, true⟩ ∧
    r ∈ srcRows.filter (fun x => hasEmail tgtRows x.email) ∧
    lookupSchema (migrateHandler env st (some src) (some tgt)).2.1 tgt =
      some ⟨some (tgtRows ++ srcRows.filter (fun x => !(hasEmail tgtRows x.email)))⟩ ∧
    t ∈ tgtRows ++ srcRows.filter (fun x => !(hasEmail tgtRows x.email)) ∧
    (srcRows.filter (fun x => hasEmail tgtRows x.email) = [r] →
      (migrateHandler env st (some src) (some tgt)).1.migration =
        some ⟨srcRows.length - 1, 1, true⟩) := by
  have hx1 : databaseExists st src = true := by simp [databaseExists, hsrc]
  have hx2 : databaseExists st tgt = true := by simp [databaseExists, htgt]
  have hrows := migrateRows_eq srcRows tgtRows hnd
  have hset : lookupSchema
      (setSchema st tgt ⟨some (tgtRows ++ srcRows.filter (fun x => !(hasEmail tgtRows x.email)))⟩)
      tgt = some ⟨some (tgtRows ++ srcRows.filter (fun x => !(hasEmail tgtRows x.email)))⟩ :=
    lookupSchema_setSchema_self st tgt _ hx2
  have hrmail : hasEmail tgtRows r.email = true := by
    apply List.any_eq_true.mpr
    exact ⟨t, htm, by simp [hemail]⟩
  have hrfilter : r ∈ srcRows.filter (fun x => hasEmail tgtRows x.email) :=
    List.mem_filter.mpr ⟨hr, hrmail⟩
  refine ⟨?_, ?_, hrfilter, ?_, List.mem_append_left _ htm, ?_⟩
  · simp [migrateHandler, jsTruthy, hs, ht, hx1, hx2, migrateDatabase, hvs, hvt,
      hsrc, htgt, hf, hrows]
  · simp [migrateHandler, jsTruthy, hs, ht, hx1, hx2, migrateDatabase, hvs, hvt,
      hsrc, htgt, hf, hrows]
  · simp [migrateHandler, jsTruthy, hs, ht, hx1, hx2, migrateDatabase, hvs, hvt,
      hsrc, htgt, hf, hrows, hset]
  · intro hone
    simp [migrateHandler, jsTruthy, hs, ht, hx1, hx2, migrateDatabase, hvs, hvt,
      hsrc, htgt, hf, hrows, hone]

/-- C3 witness: one source row whose email matches the one pre-existing
target row — the call answers 200 with exactly one conflict, zero copied,
and the target still holds its original row only. -/
theorem c3_witness :
    (migrateHandler env0 ⟨[("a", ⟨some [⟨1, "Ana", "dup", none⟩]⟩),
        ("b", ⟨some [⟨7, "Bob", "dup", some 4⟩]⟩)]⟩ (some "a") (some "b")).1.status = 200 ∧
    (migrateHandler env0 ⟨[("a", ⟨some [⟨1, "Ana", "dup", none⟩]⟩),
        ("b", ⟨some [⟨7, "Bob", "dup", some 4⟩]⟩)]⟩ (some "a") (some "b")).1.migration =
      some ⟨0, 1, true⟩ ∧
    lookupSchema (migrateHandler env0 ⟨[("a", ⟨some [⟨1, "Ana", "dup", none⟩]⟩),
        ("b", ⟨some [⟨7, "Bob", "dup", some 4⟩]⟩)]⟩ (some "a") (some "b")).2.1 "b" =
      some ⟨some [⟨7, "Bob", "dup", some 4⟩]⟩ := by
  have h := c3_migrate_conflict_skipped env0
    ⟨[("a", ⟨some [⟨1, "Ana", "dup", none⟩]⟩), ("b", ⟨some [⟨7, "Bob", "dup", some 4⟩]⟩)]⟩
    "a" "b" [⟨1, "Ana", "dup", none⟩] [⟨7, "Bob", "dup", some 4⟩]
    ⟨1, "Ana", "dup", none⟩ ⟨7, "Bob", "dup", some 4⟩
    (by decide) (by decide) (by decide) (by decide) rfl rfl (by decide)
    (by decide) (by decide) rfl rfl
  refine ⟨h.1, h.2.2.2.2.2 (by decide), ?_⟩
  have h4 := h.2.2.2.1
  simpa using h4

/-- Every literal `error` string a `server.js` response can carry: the
stable, driver-independent error kinds of the external interface. -/
def stableErrorKinds : List String :=
  ["Failed to list databases", "Schema name is required", "Failed to create schema",
   "Failed to check database", "Schema not found", "Failed to initialize schema",
   "Failed to export schema", "Source and target schema names are required",
   "Source schema not found", "Target schema not found", "Failed to migrate schema",
   "Internal server error", "Name and email are required",
   "Age must be between 1 and 150", "Email already exists", "User not found"]

/-- C7: at all eleven endpoints of the external interface, every failure
response carries an error kind drawn from the fixed stable taxonomy —
never a raw driver error or stack trace as the kind — and the driver's
unique-violation code is normalised to `Email already exists`, with no
driver message attached, at both user write endpoints. -/
theorem c7_stable_error_kinds (env : Env) (st : DBState) (dbName : String) (i : Nat)
    (nmOpt srcOpt tgtOpt nm em : Option String) (ag : Option Int) :
    (∀ e, (listDatabasesHandler env st).1.error = some e → e ∈ stableErrorKinds) ∧
    (∀ e, (createHandler env st nmOpt).1.error = some e → e ∈ stableErrorKinds) ∧
    (∀ e, (existsHandler st dbName).1.error = some e → e ∈ stableErrorKinds) ∧
    (∀ e, (initializeHandler env st dbName).1.error = some e → e ∈ stableErrorKinds) ∧
    (∀ e, (exportHandler env st dbName).1.error = some e → e ∈ stableErrorKinds) ∧
    (∀ e, (migrateHandler env st srcOpt tgtOpt).1.error = some e →
      e ∈ stableErrorKinds) ∧
    (∀ e, (listUsersHandler env st dbName).1.error = some e → e ∈ stableErrorKinds) ∧
    (∀ e, (getUserHandler env st dbName i).1.error = some e → e ∈ stableErrorKinds) ∧
    (∀ e, (createUserHandler env st dbName nm em ag).1.error = some e →
      e ∈ stableErrorKinds) ∧
    (∀ e, (updateUserHandler env st dbName i nm em ag).1.error = some e →
      e ∈ stableErrorKinds) ∧
    (∀ e, (deleteUserHandler env st dbName i).1.error = some e →
      e ∈ stableErrorKinds) ∧
    (∀ nmS emS agS rows, ((nmS : String) == "") = false → ((emS : String) == "") = false →
      jsAgeInvalid agS = false → validateIdentifier dbName = true →
      lookupSchema st dbName = some ⟨some rows⟩ → env.faultInsert = false →
      hasEmail rows emS = true →
      (createUserHandler env st dbName (some nmS) (some emS) agS).1 =
        { status := 400, error := some "Email already exists" }) ∧
    (∀ nmS emS agS rows r0, ((nmS : String) == "") = false →
      ((emS : String) == "") = false →
      jsAgeInvalid agS = false → validateIdentifier dbName = true →
      lookupSchema st dbName = some ⟨some rows⟩ → env.faultInsert = false →
      rows.find? (fun r => r.id == i) = some r0 →
      rows.any (fun r => !(r.id == i) && r.email == (emS : String)) = true →
      (updateUserHandler env st dbName i (some nmS) (some emS) agS).1 =
        { status := 400, error := some "Email already exists" }) := by
  refine ⟨?_, ?_, ?_, ?_, ?_, ?_, ?_, ?_, ?_, ?_, ?_, ?_, ?_⟩
  · intro e he
    unfold listDatabasesHandler listDatabases at he
    cases hfl : env.faultList <;> rw [hfl] at he <;> simp at he
    simp [stableErrorKinds, ← he]
  · intro e he
    unfold createHandler at he
    by_cases h : jsTruthy nmOpt = false
    · rw [if_pos h] at he
      simp at he
      simp [stableErrorKinds, ← he]
    · rw [if_neg h] at he
      dsimp only [] at he
      rcases hcr : createDatabase env st (nmOpt.getD "") with ⟨r1, st1, tr1⟩
      rw [hcr] at he
      cases r1 with
      | error e1 =>
        simp at he
        simp [stableErrorKinds, ← he]
      | ok u =>
        dsimp only [] at he
        rcases hin : initDatabase env st1 (nmOpt.getD "") with ⟨r2, st2, tr2⟩
        rw [hin] at he
        cases r2 with
        | error e2 =>
          simp at he
          simp [stableErrorKinds, ← he]
        | ok u2 => simp at he
  · intro e he
    simp [existsHandler] at he
  · intro e he
    unfold initializeHandler at he
    repeat' split at he
    all_goals simp_all [stableErrorKinds]
  · intro e he
    unfold exportHandler at he
    repeat' split at he
    all_goals simp_all [stableErrorKinds]
  · intro e he
    unfold migrateHandler at he
    by_cases hg : (!(jsTruthy srcOpt) || !(jsTruthy tgtOpt)) = true
    · rw [if_pos hg] at he
      simp at he
      simp [stableErrorKinds, ← he]
    · rw [if_neg hg] at he
      dsimp only [] at he
      by_cases h1 : databaseExists st (srcOpt.getD "") = false
      · rw [if_pos h1] at he
        simp at he
        simp [stableErrorKinds, ← he]
      · rw [if_neg h1] at he
        by_cases h2 : databaseExists st (tgtOpt.getD "") = false
        · rw [if_pos h2] at he
          simp at he
          simp [stableErrorKinds, ← he]
        · rw [if_neg h2] at he
          rcases hm : migrateDatabase env st (srcOpt.getD "") (tgtOpt.getD "")
            with ⟨r, st1, tr⟩
          rw [hm] at he
          cases r with
          | ok r1 => simp at he
          | error e1 =>
            simp at he
            simp [stableErrorKinds, ← he]
  · intro e he
    unfold listUsersHandler at he
    repeat' split at he
    all_goals simp_all [stableErrorKinds]
  · intro e he
    unfold getUserHandler at he
    repeat' split at he
    all_goals simp_all [stableErrorKinds]
  · intro e he
    unfold createUserHandler at he
    repeat' split at he
    all_goals simp_all [stableErrorKinds]
  · intro e he
    unfold updateUserHandler at he
    repeat' split at he
    all_goals simp_all [stableErrorKinds]
  · intro e he
    unfold deleteUserHandler at he
    repeat' split at he
    all_goals simp_all [stableErrorKinds]
  · intro nmS emS agS rows hnm hem hage hv hd hf hmail
    rw [createUser_dup_email env st dbName nmS emS agS rows hnm hem hage hv hd hf hmail]
  · intro nmS emS agS rows r0 hnm hem hage hv hd hf hfind hdup
    rw [updateUser_dup_email env st dbName i nmS emS agS rows r0 hnm hem hage hv hd hf
      hfind hdup]

/-- C7 witness: the kinds surfaced by concrete failures at the listing,
creation, initialize, export, migrate and user endpoints are all in the
taxonomy, and concrete duplicate emails at create and update are both
normalised to 400 `Email already exists`. -/
theorem c7_witness :
    "Failed to list databases" ∈ stableErrorKinds ∧
    "Failed to create schema" ∈ stableErrorKinds ∧
    "Failed to initialize schema" ∈ stableErrorKinds ∧
    "Failed to export schema" ∈ stableErrorKinds ∧
    "Source schema not found" ∈ stableErrorKinds ∧
    "Internal server error" ∈ stableErrorKinds ∧
    "Schema not found" ∈ stableErrorKinds ∧
    "User not found" ∈ stableErrorKinds ∧
    "Name and email are required" ∈ stableErrorKinds ∧
    (createUserHandler env0 ⟨[("t", ⟨some [⟨1, "A", "dup", none⟩]⟩)]⟩ "t"
        (some "B") (some "dup") none).1 =
      { status := 400, error := some "Email already exists" } ∧
    (updateUserHandler env0
        ⟨[("t", ⟨some [⟨1, "A", "e1", none⟩, ⟨2, "B", "e2", none⟩]⟩)]⟩ "t" 1
        (some "C") (some "e2") none).1 =
      { status := 400, error := some "Email already exists" } := by
  have hList := c7_stable_error_kinds { faultList := true } ⟨[]⟩ "t" 1
    none none none none none none
  have hCreate := c7_stable_error_kinds { faultCreate := true } ⟨[]⟩ "t" 1
    (some "abc") none none none none none
  have hInit := c7_stable_error_kinds { faultInit := true } ⟨[("t", ⟨some []⟩)]⟩ "t" 1
    none none none none none none
  have hExport := c7_stable_error_kinds { faultExport := true } ⟨[("t", ⟨some []⟩)]⟩ "t" 1
    none none none none none none
  have hMig := c7_stable_error_kinds env0 ⟨[]⟩ "t" 1
    none (some "a") (some "b") none none none
  have hQuery := c7_stable_error_kinds { faultQuery := true } ⟨[("t", ⟨some []⟩)]⟩ "t" 1
    none none none none none none
  have hMissing := c7_stable_error_kinds env0 ⟨[]⟩ "g" 1
    none none none none none none
  have hUser := c7_stable_error_kinds env0
    ⟨[("t", ⟨some [⟨1, "A", "e1", none⟩]⟩)]⟩ "t" 2 none none none none none none
  have hDupC := c7_stable_error_kinds env0
    ⟨[("t", ⟨some [⟨1, "A", "dup", none⟩]⟩)]⟩ "t" 1 none none none none none none
  have hDupU := c7_stable_error_kinds env0
    ⟨[("t", ⟨some [⟨1, "A", "e1", none⟩, ⟨2, "B", "e2", none⟩]⟩)]⟩ "t" 1
    none none none none none none
  refine ⟨hList.1 "Failed to list databases" rfl,
    hCreate.2.1 "Failed to create schema" rfl,
    hInit.2.2.2.1 "Failed to initialize schema" rfl,
    hExport.2.2.2.2.1 "Failed to export schema" rfl,
    hMig.2.2.2.2.2.1 "Source schema not found" rfl,
    hQuery.2.2.2.2.2.2.1 "Internal server error" rfl,
    hMissing.2.2.2.2.2.2.2.1 "Schema not found" rfl,
    hUser.2.2.2.2.2.2.2.1 "User not found" rfl,
    hMissing.2.2.2.2.2.2.2.2.1 "Name and email are required" rfl,
    hDupC.2.2.2.2.2.2.2.2.2.2.2.1 "B" "dup" none [⟨1, "A", "dup", none⟩]
      (by decide) (by decide) rfl (by decide) rfl rfl (by decide),
    hDupU.2.2.2.2.2.2.2.2.2.2.2.2 "C" "e2" none
      [⟨1, "A", "e1", none⟩, ⟨2, "B", "e2", none⟩] ⟨1, "A", "e1", none⟩
      (by decide) (by decide) rfl (by decide) rfl rfl (by decide) (by decide)⟩

/-- C1: for any name containing a quote, space or semicolon, the
Identifier Validator fails with `InvalidIdentifier`, and every
schema-name-consuming endpoint — schema creation, initialize, export,
migrate (as source or target), and the user list/get/create/update/delete
routes — issues no statement embedding that name into SQL text (over a
catalog of validated names, only parameterised catalog reads can mention
it): validation gates every interpolation. -/
theorem c1_invalid_name_never_embedded (env : Env) (st : DBState) (s other : String)
    (i : Nat) (nm em : Option String) (ag : Option Int)
    (hg : goodState st = true)
    (hbad : ∃ c ∈ s.data, c ∈ forbiddenChars) :
    validate s = Except.error (.invalidIdentifier s) ∧
    embedsName (createHandler env st (some s)).2.2 s = false ∧
    embedsName (initializeHandler env st s).2.2 s = false ∧
    embedsName (exportHandler env st s).2.2 s = false ∧
    embedsName (migrateHandler env st (some s) (some other)).2.2 s = false ∧
    embedsName (migrateHandler env st (some other) (some s)).2.2 s = false ∧
    embedsName (listUsersHandler env st s).2.2 s = false ∧
    embedsName (getUserHandler env st s i).2.2 s = false ∧
    embedsName (createUserHandler env st s nm em ag).2.2 s = false ∧
    embedsName (updateUserHandler env st s i nm em ag).2.2 s = false ∧
    embedsName (deleteUserHandler env st s i).2.2 s = false := by
  have hv : validateIdentifier s = false := validateIdentifier_eq_false_of_forbidden s hbad
  have hne : (s == "") = false := ne_empty_of_forbidden s hbad
  have hex : databaseExists st s = false := databaseExists_eq_false_of_invalid st s hg hv
  refine ⟨by simp [validate, hv], ?_, ?_, ?_, ?_, ?_, ?_, ?_, ?_, ?_, ?_⟩
  · unfold createHandler
    repeat' split
    all_goals simp_all [embedsName, stmtEmbeds, jsTruthy, createDatabase]
  · unfold initializeHandler
    repeat' split
    all_goals simp_all [embedsName, stmtEmbeds]
  · unfold exportHandler
    repeat' split
    all_goals simp_all [embedsName, stmtEmbeds]
  · unfold migrateHandler
    repeat' split
    all_goals simp_all [embedsName, stmtEmbeds, jsTruthy]
  · unfold migrateHandler
    repeat' split
    all_goals simp_all [embedsName, stmtEmbeds, jsTruthy]
    all_goals (split <;> simp_all)
  · unfold listUsersHandler
    repeat' split
    all_goals simp_all [embedsName, stmtEmbeds]
  · unfold getUserHandler
    repeat' split
    all_goals simp_all [embedsName, stmtEmbeds]
  · unfold createUserHandler
    repeat' split
    all_goals simp_all [embedsName, stmtEmbeds]
  · unfold updateUserHandler
    repeat' split
    all_goals simp_all [embedsName, stmtEmbeds]
  · unfold deleteUserHandler
    repeat' split
    all_goals simp_all [embedsName, stmtEmbeds]

/-- C1 witness: the name with a space is rejected by the validator and no
endpoint run on it embeds it into any statement. -/
theorem c1_witness :
    validate "a b" = Except.error (.invalidIdentifier "a b") ∧
    embedsName (createHandler env0 ⟨[]⟩ (some "a b")).2.2 "a b" = false ∧
    embedsName (initializeHandler env0 ⟨[]⟩ "a b").2.2 "a b" = false ∧
    embedsName (exportHandler env0 ⟨[]⟩ "a b").2.2 "a b" = false ∧
    embedsName (migrateHandler env0 ⟨[]⟩ (some "a b") (some "x")).2.2 "a b" = false ∧
    embedsName (migrateHandler env0 ⟨[]⟩ (some "x") (some "a b")).2.2 "a b" = false ∧
    embedsName (listUsersHandler env0 ⟨[]⟩ "a b").2.2 "a b" = false ∧
    embedsName (getUserHandler env0 ⟨[]⟩ "a b" 1).2.2 "a b" = false ∧
    embedsName (createUserHandler env0 ⟨[]⟩ "a b" (some "n") (some "e") none).2.2 "a b" = false ∧
    embedsName (updateUserHandler env0 ⟨[]⟩ "a b" 1 (some "n") (some "e") none).2.2 "a b" = false ∧
    embedsName (deleteUserHandler env0 ⟨[]⟩ "a b" 1).2.2 "a b" = false :=
  c1_invalid_name_never_embedded env0 ⟨[]⟩ "a b" "x" 1 (some "n") (some "e") none
    (by decide) (by decide)
